import Mathlib

/-!
Verification of the `edc_sync` synchronization mixin
(`src/edc_sync/models/sync_model_mixin.py`).

The Python code is shallowly embedded: Django settings become an explicit
`Settings` record where `none` models an absent attribute (the
`AttributeError` branch), a database alias's state becomes an explicit `Db`
record threaded through the operations, Python exceptions become
`Except String`, and Python `None` becomes `Option`.  The hostname, the
clock reading, and the concurrent-writer race in `sync_producer` are passed
in explicitly as parameters.
-/

namespace EdcSync

/-- Django settings object.  A field holds `none` when the attribute is not
set on the settings module, in which case reading it raises
`AttributeError` and the code falls back to `True`. -/
structure Settings where
  ALLOW_MODEL_SERIALIZATION : Option Bool
  ALLOW_AUDIT_TRAIL_MODEL_SERIALIZATION : Option Bool
  deriving Repr, DecidableEq

/-- Embedding of `SyncModelMixin.is_serialized` (lines 74-91).  The code
reads `settings.ALLOW_MODEL_SERIALIZATION` (defaulting to `True` on
`AttributeError`) and, when that is truthy, overwrites the result with
`settings.ALLOW_AUDIT_TRAIL_MODEL_SERIALIZATION` (same default) — for every
instance, without testing whether `self` is an audit-trail model. -/
def is_serialized (settings : Settings) : Bool :=
  let g := settings.ALLOW_MODEL_SERIALIZATION.getD true
  if g then
    settings.ALLOW_AUDIT_TRAIL_MODEL_SERIALIZATION.getD true
  else
    g

/-- The behaviour described by `is_serialized`'s own docstring and by the
spec: the audit-record switch disables serialization only for audit-trail
model instances, so the two switches are independent. -/
def is_serialized_documented (is_audit_instance : Bool) (settings : Settings) : Bool :=
  let g := settings.ALLOW_MODEL_SERIALIZATION.getD true
  if g then
    if is_audit_instance then
      settings.ALLOW_AUDIT_TRAIL_MODEL_SERIALIZATION.getD true
    else
      true
  else
    g

/-- Row of the `Producer` model, as created by `sync_producer`
(lines 56-72). -/
structure Producer where
  name : String
  url : String
  is_active : Bool
  settings_key : String
  deriving Repr, DecidableEq

/-- A syncable model instance: its `_meta.object_name`, its primary key
`id`, and the output of `encrypted_json()` (the cipher is an external
collaborator, so the encrypted snapshot is carried as an opaque string). -/
structure ModelInstance where
  object_name : String
  id : String
  encrypted_json : String
  deriving Repr, DecidableEq

/-- Row of the `OutgoingTransaction` model with the fields set by
`to_outgoing_transaction` (lines 46-53).  The Python keyword argument
`using` is a reserved word in Lean, so the field is spelled `using_`. -/
structure OutgoingTransaction where
  tx_name : String
  tx_pk : String
  tx : String
  timestamp : String
  producer : String
  action : String
  using_ : String
  deriving Repr, DecidableEq

/-- The state of one database alias: its `Producer` rows, its
`OutgoingTransaction` rows (in insertion order), and its persisted model
instances. -/
structure Db where
  producers : List Producer
  outgoing : List OutgoingTransaction
  entities : List ModelInstance
  deriving Repr, DecidableEq

/-- Embedding of `SyncModelMixin.sync_producer` (lines 56-72).  The name is
`hostname ++ "-" ++ db_alias`; on lookup miss the code creates the row
inside `transaction.atomic(using)`, catching and ignoring `IntegrityError`.
`concurrent_create = true` models a concurrent writer inserting the same
row between the lookup and the create, which makes the create raise
`IntegrityError`; the handler ignores it (`pass`).  The Python parameter
`using` is reserved in Lean and is spelled `db_alias`. -/
def sync_producer (hostname db_alias : String) (concurrent_create : Bool)
    (db : Db) : String × Db :=
  let producer_name := hostname ++ "-" ++ db_alias
  let row : Producer :=
    { name := producer_name
      url := "http://" ++ hostname ++ "/"
      is_active := true
      settings_key := db_alias }
  if db.producers.any (fun p => p.name == producer_name) then
    (producer_name, db)
  else
    let db1 : Db :=
      if concurrent_create then
        { db with producers := db.producers ++ [row] }
      else
        db
    if db1.producers.any (fun p => p.name == producer_name) then
      (producer_name, db1)
    else
      (producer_name, { db1 with producers := db1.producers ++ [row] })

/-- The capability surface of a model class that `SyncModelMixin.__init__`
(lines 23-34) inspects: whether `self.natural_key` exists and whether
`cls.objects.get_by_natural_key` exists, plus the names used in the error
messages. -/
structure ModelClass where
  app_label : String
  model_name : String
  has_natural_key : Bool
  has_get_by_natural_key : Bool
  deriving Repr, DecidableEq

/-- Embedding of `SyncModelMixin.__init__` (lines 23-34): raise `SyncError`
if `natural_key` is missing, then raise `SyncError` if
`get_by_natural_key` is missing, and only then call `super().__init__`. -/
def SyncModelMixin_init (cls : ModelClass) : Except String Unit :=
  if cls.has_natural_key = false then
    Except.error ("SyncError: Model " ++ cls.app_label ++ "." ++ cls.model_name ++
      " is missing method natural_key ")
  else if cls.has_get_by_natural_key = false then
    Except.error ("SyncError: Model " ++ cls.app_label ++ "." ++ cls.model_name ++
      " is missing manager method get_by_natural_key ")
  else
    Except.ok ()

/-- `Model.objects.using(db_alias).create(...)`: construct the instance
(running `SyncModelMixin_init` first, as `__init__` does) and, only when
construction succeeds, persist it.  A raised `SyncError` propagates before
any persistence attempt, so the error branch carries no database state. -/
def objects_create (cls : ModelClass) (inst : ModelInstance) (db : Db) :
    Except String Db :=
  match SyncModelMixin_init cls with
  | Except.error e => Except.error e
  | Except.ok _ => Except.ok { db with entities := db.entities ++ [inst] }

/-- Embedding of `SyncModelMixin.skip_saving_criteria` (lines 99-109).  The
Python body is the bare expression `False` with no `return`, so the method
returns `None`; `Option Bool` models the Python value, `none` being
`None`. -/
def skip_saving_criteria (_self : ModelInstance) : Option Bool :=
  none

/-- Python truthiness of an optional boolean: `None` is falsy. -/
def truthy : Option Bool → Bool
  | none => false
  | some b => b

/-- Embedding of `SyncModelMixin.deserialize_on_duplicate` (lines 143-153):
the default implementation returns `True`.  Per its docstring, returning
`False` tells the deserializer not to save the object and to flag the
transaction consumed without error; returning `True` lets the duplicate
overwrite. -/
def deserialize_on_duplicate (_self : ModelInstance) : Bool :=
  true

/-- The `w` decimal digits of `n % 10 ^ w`, most significant first: the
zero-padded fixed-width decimal rendering used by every field of the
`strftime` format string `%Y%m%d%H%M%S%f`. -/
def padDigits : Nat → Nat → List Nat
  | 0, _ => []
  | w + 1, n => (n / 10 ^ w % 10) :: padDigits w n

/-- The numeric value of a most-significant-first digit list: what
`int(timestamp)` computes in the repository's test
`test_timestamp_is_default_order`. -/
def natOfDigits : List Nat → Nat
  | [] => 0
  | d :: l => d * 10 ^ l.length + natOfDigits l

/-- A clock reading, as returned by `timezone.now()`: the seven fields the
format string `%Y%m%d%H%M%S%f` renders. -/
structure DateTime where
  year : Nat
  month : Nat
  day : Nat
  hour : Nat
  minute : Nat
  second : Nat
  microsecond : Nat
  deriving Repr, DecidableEq

/-- Each field fits its fixed width in the format string: 4 digits for the
year, 2 for month, day, hour, minute and second, 6 for the microseconds. -/
def DateTime.valid (t : DateTime) : Prop :=
  t.year < 10000 ∧ t.month < 100 ∧ t.day < 100 ∧ t.hour < 100 ∧
    t.minute < 100 ∧ t.second < 100 ∧ t.microsecond < 1000000

instance (t : DateTime) : Decidable t.valid := by
  unfold DateTime.valid; infer_instance

/-- Chronological order on clock readings: lexicographic on the fields from
year down to microsecond. -/
def DateTime.before (a b : DateTime) : Prop :=
  a.year < b.year ∨ (a.year = b.year ∧ (a.month < b.month ∨ (a.month = b.month ∧
    (a.day < b.day ∨ (a.day = b.day ∧ (a.hour < b.hour ∨ (a.hour = b.hour ∧
      (a.minute < b.minute ∨ (a.minute = b.minute ∧ (a.second < b.second ∨
        (a.second = b.second ∧ a.microsecond < b.microsecond)))))))))))

instance (a b : DateTime) : Decidable (a.before b) := by
  unfold DateTime.before; infer_instance

/-- The digit list of `now.strftime('%Y%m%d%H%M%S%f')`: the concatenation
of the zero-padded fields. -/
def strftimeDigits (t : DateTime) : List Nat :=
  padDigits 4 t.year ++ padDigits 2 t.month ++ padDigits 2 t.day ++
    padDigits 2 t.hour ++ padDigits 2 t.minute ++ padDigits 2 t.second ++
      padDigits 6 t.microsecond

/-- Embedding of `timezone.now().strftime('%Y%m%d%H%M%S%f')` (line 50): the
20-character timestamp string stored on each `OutgoingTransaction`. -/
def strftimeTS (t : DateTime) : String :=
  String.mk ((strftimeDigits t).map Nat.digitChar)

/-- The microsecond count encoded by a clock reading, mixing the fields in
their fixed radices: the numeric value of its timestamp string. -/
def DateTime.toNat (t : DateTime) : Nat :=
  (((((t.year * 100 + t.month) * 100 + t.day) * 100 + t.hour) * 100 +
      t.minute) * 100 + t.second) * 1000000 + t.microsecond

/-- Numeric comparison of a timestamp string: `int(timestamp)` on its
decimal digits, as the repository's test suite compares timestamps. -/
def tsNat (s : String) : Nat :=
  natOfDigits (s.data.map (fun c => c.toNat - 48))

/-- Embedding of `SyncModelMixin.to_outgoing_transaction` (lines 36-54):
default `created` to `True` when it is `None`, pick the action (`'D'` wins
over `'I'`/`'U'`), and when `is_serialized()` holds, assert that the target
database is not `'default'` and create exactly one `OutgoingTransaction`
row whose producer comes from `sync_producer`.  A failed `assert` is the
error branch; with serialization off the method returns `None` and touches
nothing.  The Python parameter `using` is reserved in Lean and is spelled
`db_alias`. -/
def to_outgoing_transaction (self : ModelInstance) (settings : Settings)
    (hostname : String) (now : DateTime) (concurrent_create : Bool)
    (db_alias : String) (created : Option Bool) (deleted : Option Bool)
    (db : Db) : Except String (Option OutgoingTransaction × Db) :=
  let created := created.getD true
  let action := if created then "I" else "U"
  let action := if deleted.getD false then "D" else action
  if is_serialized settings then
    if db_alias = "default" then
      Except.error ("AssertionError: " ++ self.object_name)
    else
      let p := sync_producer hostname db_alias concurrent_create db
      let ot : OutgoingTransaction :=
        { tx_name := self.object_name
          tx_pk := self.id
          tx := self.encrypted_json
          timestamp := strftimeTS now
          producer := p.1
          action := action
          using_ := db_alias }
      Except.ok (some ot, { p.2 with outgoing := p.2.outgoing ++ [ot] })
  else
    Except.ok (none, db)

/-- Modelled from the spec: the post-save signal handler that invokes
`to_outgoing_transaction` is not under `src/` (only the mixin and its tests
are).  Per the spec, when serialization is enabled "and the entity does not
opt out via a skip-saving predicate", exactly one `OutgoingTransaction` is
built; the predicate's result is consulted with Python truthiness. -/
def save_hook (self : ModelInstance) (settings : Settings)
    (hostname : String) (now : DateTime) (concurrent_create : Bool)
    (db_alias : String) (created deleted : Option Bool) (db : Db) :
    Except String (Option OutgoingTransaction × Db) :=
  if truthy (skip_saving_criteria self) then
    Except.ok (none, db)
  else
    to_outgoing_transaction self settings hostname now concurrent_create
      db_alias created deleted db

/-- Outcome of handling one duplicate-delivered Insert row: whether the
incoming fields were saved over the existing record, whether the row was
flagged consumed, and whether the row was counted as an error. -/
structure DupOutcome where
  saved : Bool
  is_consumed : Bool
  counted_as_error : Bool
  deriving Repr, DecidableEq

/-- Modelled from the spec: the deserializer that consults
`deserialize_on_duplicate` is not under `src/` (only the mixin and its
tests are).  Per the spec and the method's docstring: when the policy
returns `False` the object is not saved and the transaction is flagged
consumed without error; when it returns `True` the duplicate's fields are
applied and the row is likewise consumed without error. -/
def handle_duplicate_insert (policy : Bool) : DupOutcome :=
  if policy then
    { saved := true, is_consumed := true, counted_as_error := false }
  else
    { saved := false, is_consumed := true, counted_as_error := false }

/-- Row of the `IncomingTransaction` model: the copied transaction fields
plus the per-row `is_consumed` flag (default false). -/
structure IncomingTransaction where
  tx_name : String
  tx_pk : String
  tx : String
  timestamp : String
  producer : String
  action : String
  is_consumed : Bool
  deriving Repr, DecidableEq

/-- Modelled from the spec: the `deserialize` queryset method of
`IncomingTransaction` is not under `src/` (only its tests are).  Per the
spec: "Role gate: if the invoking node's role is not 'server', fail
immediately with an authorization error and make no changes to any row —
this check precedes any decryption or entity lookup"; on a server-role
node each successfully applied row is marked consumed.  The returned pair
is (raised error if any, resulting rows). -/
def deserialize (is_server : Bool) (rows : List IncomingTransaction) :
    Option String × List IncomingTransaction :=
  if is_server then
    (none, rows.map (fun r => { r with is_consumed := true }))
  else
    (some "SyncError: deserialize requires the server role", rows)

theorem padDigits_length (w n : Nat) : (padDigits w n).length = w := by
  induction w generalizing n with
  | zero => rfl
  | succ w ih => simp [padDigits, ih]

theorem padDigits_digit_lt (w n : Nat) : ∀ d ∈ padDigits w n, d < 10 := by
  induction w generalizing n with
  | zero => intro d hd; simp [padDigits] at hd
  | succ w ih =>
    intro d hd
    simp only [padDigits, List.mem_cons] at hd
    rcases hd with h | h
    · subst h; exact Nat.mod_lt _ (by norm_num)
    · exact ih n d h

theorem natOfDigits_append (l1 l2 : List Nat) :
    natOfDigits (l1 ++ l2) = natOfDigits l1 * 10 ^ l2.length + natOfDigits l2 := by
  induction l1 with
  | nil => simp [natOfDigits]
  | cons d l1 ih =>
    show d * 10 ^ (l1 ++ l2).length + natOfDigits (l1 ++ l2)
      = (d * 10 ^ l1.length + natOfDigits l1) * 10 ^ l2.length + natOfDigits l2
    rw [ih, List.length_append, pow_add]
    ring

theorem natOfDigits_padDigits (w n : Nat) :
    natOfDigits (padDigits w n) = n % 10 ^ w := by
  induction w generalizing n with
  | zero => simp [padDigits, natOfDigits, Nat.mod_one]
  | succ w ih =>
    have hmul : (10 : Nat) ^ (w + 1) = 10 ^ w * 10 := by ring
    rw [hmul, Nat.mod_mul]
    simp only [padDigits, natOfDigits, padDigits_length, ih]
    ring

theorem natOfDigits_lt_pow (l : List Nat) (h : ∀ d ∈ l, d < 10) :
    natOfDigits l < 10 ^ l.length := by
  induction l with
  | nil => simp [natOfDigits]
  | cons d l ih =>
    have hd : d < 10 := h d (List.mem_cons_self d l)
    have hl : natOfDigits l < 10 ^ l.length :=
      ih (fun x hx => h x (List.mem_cons_of_mem d hx))
    have : d * 10 ^ l.length + natOfDigits l < (d + 1) * 10 ^ l.length := by
      nlinarith
    calc natOfDigits (d :: l) = d * 10 ^ l.length + natOfDigits l := rfl
      _ < (d + 1) * 10 ^ l.length := this
      _ ≤ 10 * 10 ^ l.length := Nat.mul_le_mul_right _ hd
      _ = 10 ^ (d :: l).length := by simp [List.length_cons]; ring

/-- Lexicographic order on equal-length digit lists agrees with the order
of their numeric values. -/
theorem digits_lt_iff_natOfDigits (l1 l2 : List Nat) (hlen : l1.length = l2.length)
    (h1 : ∀ d ∈ l1, d < 10) (h2 : ∀ d ∈ l2, d < 10) :
    l1 < l2 ↔ natOfDigits l1 < natOfDigits l2 := by
  induction l1 generalizing l2 with
  | nil =>
    cases l2 with
    | nil =>
      constructor
      · intro h; cases h
      · intro h; simp [natOfDigits] at h
    | cons d l2 => simp at hlen
  | cons d1 l1 ih =>
    cases l2 with
    | nil => simp at hlen
    | cons d2 l2 =>
      have hlen' : l1.length = l2.length := by simpa using hlen
      have h1' : ∀ d ∈ l1, d < 10 := fun x hx => h1 x (List.mem_cons_of_mem d1 hx)
      have h2' : ∀ d ∈ l2, d < 10 := fun x hx => h2 x (List.mem_cons_of_mem d2 hx)
      have hv1 : natOfDigits l1 < 10 ^ l2.length := by
        rw [← hlen']; exact natOfDigits_lt_pow l1 h1'
      have hv2 : natOfDigits l2 < 10 ^ l2.length := natOfDigits_lt_pow l2 h2'
      have hiff : l1 < l2 ↔ natOfDigits l1 < natOfDigits l2 := ih l2 hlen' h1' h2'
      have hun1 : natOfDigits (d1 :: l1) = d1 * 10 ^ l2.length + natOfDigits l1 := by
        show d1 * 10 ^ l1.length + natOfDigits l1 = _
        rw [hlen']
      have hun2 : natOfDigits (d2 :: l2) = d2 * 10 ^ l2.length + natOfDigits l2 := rfl
      constructor
      · intro h
        cases h with
        | cons htl =>
          have hv : natOfDigits l1 < natOfDigits l2 := hiff.mp htl
          rw [hun1, hun2]
          linarith
        | rel hd =>
          have hstep : (d1 + 1) * 10 ^ l2.length ≤ d2 * 10 ^ l2.length :=
            Nat.mul_le_mul_right _ hd
          have hexp : (d1 + 1) * 10 ^ l2.length
              = d1 * 10 ^ l2.length + 10 ^ l2.length := by ring
          rw [hun1, hun2]
          linarith
      · intro h
        rw [hun1, hun2] at h
        rcases Nat.lt_trichotomy d1 d2 with hd | hd | hd
        · exact List.Lex.rel hd
        · subst hd
          have hv : natOfDigits l1 < natOfDigits l2 :=
            Nat.lt_of_add_lt_add_left h
          exact List.Lex.cons (hiff.mpr hv)
        · exfalso
          have hstep : (d2 + 1) * 10 ^ l2.length ≤ d1 * 10 ^ l2.length :=
            Nat.mul_le_mul_right _ hd
          have hexp : (d2 + 1) * 10 ^ l2.length
              = d2 * 10 ^ l2.length + 10 ^ l2.length := by ring
          linarith

theorem digitChar_lt_iff : ∀ d1, d1 < 10 → ∀ d2, d2 < 10 →
    (Nat.digitChar d1 < Nat.digitChar d2 ↔ d1 < d2) := by decide

theorem digitChar_inj : ∀ d1, d1 < 10 → ∀ d2, d2 < 10 →
    Nat.digitChar d1 = Nat.digitChar d2 → d1 = d2 := by decide

theorem digitChar_toNat : ∀ d, d < 10 → (Nat.digitChar d).toNat = 48 + d := by decide

theorem lex_cons_inv {α : Type} {r : α → α → Prop} {a b : α} {l1 l2 : List α}
    (h : List.Lex r (a :: l1) (b :: l2)) : r a b ∨ (a = b ∧ List.Lex r l1 l2) := by
  cases h with
  | cons htl => exact Or.inr ⟨rfl, htl⟩
  | rel hr => exact Or.inl hr

/-- Mapping digits to their characters preserves the lexicographic
order. -/
theorem map_digitChar_lt_iff (l1 l2 : List Nat)
    (h1 : ∀ d ∈ l1, d < 10) (h2 : ∀ d ∈ l2, d < 10) :
    l1.map Nat.digitChar < l2.map Nat.digitChar ↔ l1 < l2 := by
  induction l1 generalizing l2 with
  | nil =>
    cases l2 with
    | nil =>
      simp only [List.map_nil]
      constructor
      · intro h; cases h
      · intro h; cases h
    | cons d2 l2 =>
      simp only [List.map_nil, List.map_cons]
      constructor
      · intro _; exact List.Lex.nil
      · intro _; exact List.Lex.nil
  | cons d1 l1 ih =>
    cases l2 with
    | nil =>
      simp only [List.map_cons, List.map_nil]
      constructor
      · intro h; cases h
      · intro h; cases h
    | cons d2 l2 =>
      have hd1 : d1 < 10 := h1 d1 (List.mem_cons_self d1 l1)
      have hd2 : d2 < 10 := h2 d2 (List.mem_cons_self d2 l2)
      have h1' : ∀ d ∈ l1, d < 10 := fun x hx => h1 x (List.mem_cons_of_mem d1 hx)
      have h2' : ∀ d ∈ l2, d < 10 := fun x hx => h2 x (List.mem_cons_of_mem d2 hx)
      have hrec := ih l2 h1' h2'
      simp only [List.map_cons]
      constructor
      · intro h
        rcases lex_cons_inv h with hd | ⟨heq, htl⟩
        · exact List.Lex.rel ((digitChar_lt_iff d1 hd1 d2 hd2).mp hd)
        · obtain rfl : d1 = d2 := digitChar_inj d1 hd1 d2 hd2 heq
          exact List.Lex.cons (hrec.mp htl)
      · intro h
        rcases lex_cons_inv h with hd | ⟨heq, htl⟩
        · exact List.Lex.rel ((digitChar_lt_iff d1 hd1 d2 hd2).mpr hd)
        · obtain rfl : d1 = d2 := heq
          exact List.Lex.cons (hrec.mpr htl)

theorem strftimeDigits_lt (t : DateTime) : ∀ d ∈ strftimeDigits t, d < 10 := by
  intro d hd
  simp only [strftimeDigits, List.mem_append] at hd
  rcases hd with ((((((h | h) | h) | h) | h) | h) | h) <;>
    exact padDigits_digit_lt _ _ d h

theorem strftimeDigits_length (t : DateTime) : (strftimeDigits t).length = 20 := by
  simp [strftimeDigits, padDigits_length]

/-- For a valid clock reading the timestamp digits encode exactly the
mixed-radix value `DateTime.toNat`. -/
theorem natOfDigits_strftimeDigits (t : DateTime) (h : t.valid) :
    natOfDigits (strftimeDigits t) = t.toNat := by
  obtain ⟨hy, hmo, hd, hh, hmi, hs, hu⟩ := h
  simp only [strftimeDigits, natOfDigits_append, natOfDigits_padDigits,
    List.length_append, padDigits_length]
  rw [Nat.mod_eq_of_lt (by omega : t.year < 10 ^ 4),
    Nat.mod_eq_of_lt (by omega : t.month < 10 ^ 2),
    Nat.mod_eq_of_lt (by omega : t.day < 10 ^ 2),
    Nat.mod_eq_of_lt (by omega : t.hour < 10 ^ 2),
    Nat.mod_eq_of_lt (by omega : t.minute < 10 ^ 2),
    Nat.mod_eq_of_lt (by omega : t.second < 10 ^ 2),
    Nat.mod_eq_of_lt (by omega : t.microsecond < 10 ^ 6)]
  simp only [DateTime.toNat]
  norm_num

/-- Chronological order on valid clock readings agrees with the order of
their mixed-radix values. -/
theorem before_iff_toNat (t1 t2 : DateTime) (h1 : t1.valid) (h2 : t2.valid) :
    t1.before t2 ↔ t1.toNat < t2.toNat := by
  obtain ⟨hy1, hmo1, hd1, hh1, hmi1, hs1, hu1⟩ := h1
  obtain ⟨hy2, hmo2, hd2, hh2, hmi2, hs2, hu2⟩ := h2
  simp only [DateTime.before, DateTime.toNat]
  omega

/-- Lexical order of two timestamp strings agrees with the chronological
mixed-radix value of the clock readings that produced them. -/
theorem strftimeTS_lt_iff (t1 t2 : DateTime) (h1 : t1.valid) (h2 : t2.valid) :
    strftimeTS t1 < strftimeTS t2 ↔ t1.toNat < t2.toNat := by
  have hstr := @String.lt_iff_toList_lt (strftimeTS t1) (strftimeTS t2)
  rw [hstr]
  show (strftimeDigits t1).map Nat.digitChar < (strftimeDigits t2).map Nat.digitChar ↔ _
  rw [map_digitChar_lt_iff _ _ (strftimeDigits_lt t1) (strftimeDigits_lt t2),
    digits_lt_iff_natOfDigits _ _
      (by rw [strftimeDigits_length, strftimeDigits_length])
      (strftimeDigits_lt t1) (strftimeDigits_lt t2),
    natOfDigits_strftimeDigits t1 h1, natOfDigits_strftimeDigits t2 h2]

theorem map_digitChar_roundtrip (l : List Nat) (hl : ∀ d ∈ l, d < 10) :
    l.map (fun d => (Nat.digitChar d).toNat - 48) = l := by
  induction l with
  | nil => rfl
  | cons d l ih =>
    have hd := hl d (List.mem_cons_self d l)
    rw [List.map_cons, digitChar_toNat d hd,
      ih (fun x hx => hl x (List.mem_cons_of_mem d hx))]
    norm_num

/-- Parsing a timestamp string back to a number recovers the mixed-radix
value of the clock reading: lexical comparison and numeric comparison see
the same data. -/
theorem tsNat_strftimeTS (t : DateTime) (h : t.valid) :
    tsNat (strftimeTS t) = t.toNat := by
  show natOfDigits (((strftimeDigits t).map Nat.digitChar).map (fun c => c.toNat - 48)) = _
  rw [List.map_map]
  have : ((fun c : Char => c.toNat - 48) ∘ Nat.digitChar)
      = fun d => (Nat.digitChar d).toNat - 48 := rfl
  rw [this, map_digitChar_roundtrip _ (strftimeDigits_lt t),
    natOfDigits_strftimeDigits t h]

theorem sync_producer_fst (hostname db_alias : String) (concurrent_create : Bool)
    (db : Db) :
    (sync_producer hostname db_alias concurrent_create db).1
      = hostname ++ "-" ++ db_alias := by
  unfold sync_producer
  dsimp only
  split_ifs <;> rfl

theorem sync_producer_outgoing (hostname db_alias : String) (concurrent_create : Bool)
    (db : Db) :
    (sync_producer hostname db_alias concurrent_create db).2.outgoing
      = db.outgoing := by
  unfold sync_producer
  dsimp only
  split_ifs <;> rfl

theorem sync_producer_entities (hostname db_alias : String) (concurrent_create : Bool)
    (db : Db) :
    (sync_producer hostname db_alias concurrent_create db).2.entities
      = db.entities := by
  unfold sync_producer
  dsimp only
  split_ifs <;> rfl

theorem sync_producer_registered (hostname db_alias : String) (concurrent_create : Bool)
    (db : Db) :
    ((sync_producer hostname db_alias concurrent_create db).2.producers.any
      (fun p => p.name == hostname ++ "-" ++ db_alias)) = true := by
  unfold sync_producer
  dsimp only
  split_ifs with h1 h2 h3 <;> simp_all [List.any_append]

/-- Claim C1 (code bug exhibit): with the global switch enabled and the
audit-record switch disabled, `is_serialized` returns `false` for every
instance — including non-audit ones — while the behaviour the method's own
docstring and the spec describe (`is_serialized_documented`) keeps a
non-audit instance serialized.  The switches are not independent in the
code. -/
theorem C1_is_serialized_audit_switch_not_independent :
    is_serialized ⟨some true, some false⟩ = false ∧
    is_serialized_documented false ⟨some true, some false⟩ = true := by
  decide

/-- Claim C2 (counterexample): the claim says the default duplicate policy
signals "skip", which per `deserialize_on_duplicate`'s docstring means
returning `False`; the default implementation returns `True` instead. -/
theorem C2_default_duplicate_policy_is_not_skip :
    deserialize_on_duplicate ⟨"TestModel", "pk1", "enc"⟩ ≠ false := by
  decide

/-- Claim C2 (amended): the default `deserialize_on_duplicate` returns
`True`, signalling "overwrite": on duplicate delivery of an Insert the
incoming fields are applied and the row is marked consumed without error;
a policy returning `False` signals "skip": no change, not counted as an
error, and the row is still marked consumed. -/
theorem C2_default_duplicate_policy_overwrites (self : ModelInstance) :
    deserialize_on_duplicate self = true ∧
    handle_duplicate_insert (deserialize_on_duplicate self) =
      { saved := true, is_consumed := true, counted_as_error := false } ∧
    handle_duplicate_insert false =
      { saved := false, is_consumed := true, counted_as_error := false } :=
  ⟨rfl, rfl, rfl⟩

/-- Claim C3: `sync_producer` always returns the canonical name
`hostname ++ "-" ++ db_alias`, whether the record already existed, the
create succeeded, or a concurrent writer won the race (the
`IntegrityError` is swallowed); afterwards a `Producer` row with the
canonical name exists.  The function is total: no error ever surfaces. -/
theorem C3_sync_producer_canonical_name_race_absorbed
    (hostname db_alias : String) (concurrent_create : Bool) (db : Db) :
    (sync_producer hostname db_alias concurrent_create db).1
      = hostname ++ "-" ++ db_alias ∧
    ((sync_producer hostname db_alias concurrent_create db).2.producers.any
      (fun p => p.name == hostname ++ "-" ++ db_alias)) = true :=
  ⟨sync_producer_fst hostname db_alias concurrent_create db,
    sync_producer_registered hostname db_alias concurrent_create db⟩

/-- Claim C4: constructing an instance of an entity type missing
`natural_key` or `get_by_natural_key` raises `SyncError` before any
persistence (the error branch of `objects_create` carries no new database
state); a type exposing both constructs and persists normally. -/
theorem C4_init_fail_fast (cls : ModelClass) (inst : ModelInstance) (db : Db) :
    (cls.has_natural_key = false ∨ cls.has_get_by_natural_key = false →
      ∃ e, objects_create cls inst db = Except.error e) ∧
    (cls.has_natural_key = true → cls.has_get_by_natural_key = true →
      objects_create cls inst db =
        Except.ok { db with entities := db.entities ++ [inst] }) := by
  constructor
  · intro h
    rcases h with h | h
    · exact ⟨"SyncError: Model " ++ cls.app_label ++ "." ++ cls.model_name ++
        " is missing method natural_key ",
        by simp [objects_create, SyncModelMixin_init, h]⟩
    · cases hnk : cls.has_natural_key with
      | false =>
        exact ⟨"SyncError: Model " ++ cls.app_label ++ "." ++ cls.model_name ++
          " is missing method natural_key ",
          by simp [objects_create, SyncModelMixin_init, hnk]⟩
      | true =>
        exact ⟨"SyncError: Model " ++ cls.app_label ++ "." ++ cls.model_name ++
          " is missing manager method get_by_natural_key ",
          by simp [objects_create, SyncModelMixin_init, hnk, h]⟩
  · intro hnk hg
    simp [objects_create, SyncModelMixin_init, hnk, hg]

/-- Claim C4 witness: a class missing both capabilities errors at
construction; a class with both persists the instance. -/
theorem C4_init_fail_fast_witness :
    (∃ e, objects_create ⟨"edc_sync", "badtestmodel", false, false⟩
      ⟨"BadTestModel", "pk1", "enc"⟩ ⟨[], [], []⟩ = Except.error e) ∧
    objects_create ⟨"example", "testmodel", true, true⟩
      ⟨"TestModel", "pk1", "enc"⟩ ⟨[], [], []⟩ =
      Except.ok ⟨[], [], [⟨"TestModel", "pk1", "enc"⟩]⟩ :=
  ⟨(C4_init_fail_fast ⟨"edc_sync", "badtestmodel", false, false⟩
      ⟨"BadTestModel", "pk1", "enc"⟩ ⟨[], [], []⟩).1 (Or.inl rfl),
    (C4_init_fail_fast ⟨"example", "testmodel", true, true⟩
      ⟨"TestModel", "pk1", "enc"⟩ ⟨[], [], []⟩).2 rfl rfl⟩

/-- Claim C5 (counterexample): the claim quantifies over every call with
serialization enabled, but a call with `using = 'default'` creates no
`OutgoingTransaction` at all — the assertion fails instead. -/
theorem C5_default_alias_creates_nothing :
    to_outgoing_transaction ⟨"TestModel", "pk1", "enc"⟩ ⟨some true, some true⟩
      "host" ⟨2016, 5, 1, 12, 0, 0, 0⟩ false "default" none none ⟨[], [], []⟩ =
      Except.error ("AssertionError: " ++ "TestModel") := by
  rfl

/-- Claim C5 (amended): for every call with serialization enabled and
`using` different from `'default'`, exactly one `OutgoingTransaction` is
appended, with action `'D'` when deleted (taking precedence), else `'I'`
when created (defaulting to created when `None`), else `'U'`; `tx_name` is
the type name, `tx_pk` the local id, `tx` the encrypted snapshot, and
`producer` the canonical producer name for (host, using). -/
theorem C5_to_outgoing_creates_exactly_one (self : ModelInstance)
    (settings : Settings) (hostname : String) (now : DateTime)
    (concurrent_create : Bool) (db_alias : String) (created deleted : Option Bool)
    (db : Db) (hser : is_serialized settings = true)
    (halias : db_alias ≠ "default") :
    ∃ db2,
      to_outgoing_transaction self settings hostname now concurrent_create
          db_alias created deleted db =
        Except.ok (some
          { tx_name := self.object_name
            tx_pk := self.id
            tx := self.encrypted_json
            timestamp := strftimeTS now
            producer := hostname ++ "-" ++ db_alias
            action := if deleted.getD false then "D"
              else if created.getD true then "I" else "U"
            using_ := db_alias }, db2) ∧
      db2.outgoing = db.outgoing ++
        [{ tx_name := self.object_name
           tx_pk := self.id
           tx := self.encrypted_json
           timestamp := strftimeTS now
           producer := hostname ++ "-" ++ db_alias
           action := if deleted.getD false then "D"
             else if created.getD true then "I" else "U"
           using_ := db_alias }] := by
  refine ⟨{ (sync_producer hostname db_alias concurrent_create db).2 with
      outgoing := (sync_producer hostname db_alias concurrent_create db).2.outgoing ++
        [{ tx_name := self.object_name
           tx_pk := self.id
           tx := self.encrypted_json
           timestamp := strftimeTS now
           producer := hostname ++ "-" ++ db_alias
           action := if deleted.getD false then "D"
             else if created.getD true then "I" else "U"
           using_ := db_alias }] }, ?_, ?_⟩
  · simp only [to_outgoing_transaction, hser, if_true, eq_self_iff_true,
      if_neg halias, sync_producer_fst]
  · simp only [sync_producer_outgoing]

/-- Claim C5 (amended) witness: a concrete call on database alias
`'client'` with both switches enabled appends exactly one transaction. -/
theorem C5_to_outgoing_creates_exactly_one_witness :
    is_serialized ⟨some true, some true⟩ = true ∧
    ("client" : String) ≠ "default" ∧
    ∃ db2,
      to_outgoing_transaction ⟨"TestModel", "pk1", "enc"⟩ ⟨some true, some true⟩
          "host" ⟨2016, 5, 1, 12, 0, 0, 0⟩ false "client" none none ⟨[], [], []⟩ =
        Except.ok (some
          { tx_name := "TestModel"
            tx_pk := "pk1"
            tx := "enc"
            timestamp := strftimeTS ⟨2016, 5, 1, 12, 0, 0, 0⟩
            producer := "host" ++ "-" ++ "client"
            action := if (none : Option Bool).getD false then "D"
              else if (none : Option Bool).getD true then "I" else "U"
            using_ := "client" }, db2) ∧
      db2.outgoing =
        [{ tx_name := "TestModel"
           tx_pk := "pk1"
           tx := "enc"
           timestamp := strftimeTS ⟨2016, 5, 1, 12, 0, 0, 0⟩
           producer := "host" ++ "-" ++ "client"
           action := if (none : Option Bool).getD false then "D"
             else if (none : Option Bool).getD true then "I" else "U"
           using_ := "client" }] :=
  ⟨by decide, by decide,
    C5_to_outgoing_creates_exactly_one ⟨"TestModel", "pk1", "enc"⟩
      ⟨some true, some true⟩ "host" ⟨2016, 5, 1, 12, 0, 0, 0⟩ false "client"
      none none ⟨[], [], []⟩ (by decide) (by decide)⟩

/-- Claim C6 (code bug exhibit): the default `skip_saving_criteria` returns
`None` (its Python body is the bare expression `False` without `return`),
not `False` as the claim and the method's own docstring state; behaviour
coincides only because `None` is falsy, so the default still does not
skip. -/
theorem C6_skip_saving_criteria_returns_none (self : ModelInstance) :
    skip_saving_criteria self = none ∧
    skip_saving_criteria self ≠ some false ∧
    truthy (skip_saving_criteria self) = false :=
  ⟨rfl, fun h => Option.noConfusion h, rfl⟩

/-- Claim C7: for valid clock readings, a chronologically later reading
yields a strictly lexically larger timestamp string, and lexical comparison
of two timestamp strings agrees with numeric comparison of their parsed
decimal values. -/
theorem C7_timestamps_strictly_increase_lex_eq_numeric (t1 t2 : DateTime)
    (h1 : t1.valid) (h2 : t2.valid) :
    (t1.before t2 → strftimeTS t1 < strftimeTS t2) ∧
    (strftimeTS t1 < strftimeTS t2 ↔
      tsNat (strftimeTS t1) < tsNat (strftimeTS t2)) := by
  have hlt := strftimeTS_lt_iff t1 t2 h1 h2
  constructor
  · intro hb
    exact hlt.mpr ((before_iff_toNat t1 t2 h1 h2).mp hb)
  · rw [hlt, tsNat_strftimeTS t1 h1, tsNat_strftimeTS t2 h2]

/-- Claim C7 witness: two concrete successive microsecond readings. -/
theorem C7_timestamps_witness :
    (DateTime.mk 2016 5 1 12 30 45 999999).valid ∧
    (DateTime.mk 2016 5 1 12 30 46 0).valid ∧
    ((DateTime.mk 2016 5 1 12 30 45 999999).before (DateTime.mk 2016 5 1 12 30 46 0) →
      strftimeTS (DateTime.mk 2016 5 1 12 30 45 999999) <
        strftimeTS (DateTime.mk 2016 5 1 12 30 46 0)) ∧
    (strftimeTS (DateTime.mk 2016 5 1 12 30 45 999999) <
        strftimeTS (DateTime.mk 2016 5 1 12 30 46 0) ↔
      tsNat (strftimeTS (DateTime.mk 2016 5 1 12 30 45 999999)) <
        tsNat (strftimeTS (DateTime.mk 2016 5 1 12 30 46 0))) :=
  ⟨by decide, by decide,
    (C7_timestamps_strictly_increase_lex_eq_numeric
      (DateTime.mk 2016 5 1 12 30 45 999999) (DateTime.mk 2016 5 1 12 30 46 0)
      (by decide) (by decide)).1,
    (C7_timestamps_strictly_increase_lex_eq_numeric
      (DateTime.mk 2016 5 1 12 30 45 999999) (DateTime.mk 2016 5 1 12 30 46 0)
      (by decide) (by decide)).2⟩

/-- Claim C8: with the global serialization switch set to `False`, no
`OutgoingTransaction` is created for any save of any entity in any
database, whatever the audit switch holds: the method returns `None` and
the database state is untouched. -/
theorem C8_global_switch_off_creates_nothing (audit : Option Bool)
    (self : ModelInstance) (hostname : String) (now : DateTime)
    (concurrent_create : Bool) (db_alias : String)
    (created deleted : Option Bool) (db : Db) :
    to_outgoing_transaction self ⟨some false, audit⟩ hostname now
        concurrent_create db_alias created deleted db =
      Except.ok (none, db) := by
  simp [to_outgoing_transaction, is_serialized]

/-- Claim C9: invoking `deserialize` on a node that is not a server raises
a `SyncError` and returns the rows unchanged — every `is_consumed` flag is
exactly as it was, and the gate fires before anything else runs. -/
theorem C9_deserialize_role_gate (rows : List IncomingTransaction) :
    deserialize false rows =
      (some "SyncError: deserialize requires the server role", rows) := by
  rfl

/-- Claim C10: with serialization enabled, a call on the `'default'`
database alias fails the assertion — the error propagates before any
`OutgoingTransaction` is written (the error branch returns no state). -/
theorem C10_default_alias_assertion (self : ModelInstance) (settings : Settings)
    (hostname : String) (now : DateTime) (concurrent_create : Bool)
    (created deleted : Option Bool) (db : Db)
    (hser : is_serialized settings = true) :
    to_outgoing_transaction self settings hostname now concurrent_create
        "default" created deleted db =
      Except.error ("AssertionError: " ++ self.object_name) := by
  unfold to_outgoing_transaction
  rw [hser]
  simp

/-- Claim C10 witness: a concrete call on `'default'` with serialization
enabled raises the assertion error. -/
theorem C10_default_alias_assertion_witness :
    is_serialized ⟨some true, some true⟩ = true ∧
    to_outgoing_transaction ⟨"TestModel", "pk1", "enc"⟩ ⟨some true, some true⟩
        "host" ⟨2016, 5, 1, 12, 0, 0, 0⟩ false "default" none none ⟨[], [], []⟩ =
      Except.error ("AssertionError: " ++ "TestModel") :=
  ⟨by decide,
    C10_default_alias_assertion ⟨"TestModel", "pk1", "enc"⟩ ⟨some true, some true⟩
      "host" ⟨2016, 5, 1, 12, 0, 0, 0⟩ false none none ⟨[], [], []⟩ (by decide)⟩

end EdcSync
